import Mathlib

/-!
Verification of the Light-painter sketch (src/Light_painter.ino) against its
natural-language specification.

The definitions below are a shallow embedding of the parts of the sketch the
claims are about: the brightness/gamma/dither colour pipeline and current
estimation of bmpProcess, the crop/centering geometry, the row-order logic,
the SD scan loops that populate the fileIndex table, the speed profiler
(benchmark / checkSpeed) and the EEPROM configuration round trip.  Machine
integers are modelled as Nat with explicit reductions modulo 2^8, 2^16 or
2^32 at the points where the C types force them.
-/

namespace LightPainter

/-- Strip length, from the configuration define on line 46:
`#define N_LEDS 144`. -/
def N_LEDS : Nat := 144

/-- Constant loop overhead in microseconds, line 82: `#define OVERHEAD 150`. -/
def OVERHEAD : Nat := 150

/-- Current budget in mA, line 60: `#define CURRENT_MAX 3500`. -/
def CURRENT_MAX : Nat := 3500

/-- Generic shape of the tracking loops `if (new > acc) acc = new` used by
`benchmark` (line 1084), `checkSpeed` (line 567) and the lineMax tracking in
`bmpProcess` (line 1034): fold over the inputs keeping the largest value of
`f`, starting from the accumulator value `a`. -/
def trackMax {α : Type} (f : α → Nat) (l : List α) (a : Nat) : Nat :=
  l.foldl (fun acc x => if f x > acc then f x else acc) a

/- THROUGHPUT PROFILER (checkSpeed / benchmark) ------------------------------ -/

/-- Worst observed block-read latency, from `benchmark` (lines 1078-1088):
the do-while loop reads `n` consecutive blocks and keeps the maximum of the
measured per-read times (`if((t = (micros() - t)) > maxTime) maxTime = t`).
The sequence of measured read times is modelled as a list of microsecond
values, one per block read. -/
def benchmark (ts : List Nat) : Nat :=
  trackMax (fun t => t) ts 0

/-- Per-frame safe playback rate in rows/second, from `checkSpeed` lines
564-566:
`n = (uint16_t)(1000000L / (((benchmark(firstBlock, nBlocks) * 21) / 20) +
(N_LEDS * 30L) + OVERHEAD));`
i.e. worst latency + 5%, plus 30 µs per LED, plus the loop overhead,
inverted.  The uint32 multiplication and the uint16 cast are kept as
explicit mods. -/
def frameRate (ts : List Nat) : Nat :=
  1000000 / (benchmark ts * 21 % 4294967296 / 20 + N_LEDS * 30 + OVERHEAD) % 65536

/-- The loop of `checkSpeed` (lines 551-572): iterate over the indexed
frames and update `maxLPS` by `if(n > maxLPS) maxLPS = n` (line 567).
`init` is the value `maxLPS` holds on entry: 0 at startup (zero-initialised
global, line 94), the previous clamped value on later calls — `checkSpeed`
never resets it.  Each frame is represented by its list of per-block read
latencies. -/
def checkSpeed (init : Nat) (frames : List (List Nat)) : Nat :=
  frames.foldl (fun maxLPS ts => if frameRate ts > maxLPS then frameRate ts else maxLPS) init

/-- One complete speed-check step as performed at lines 183-184 (setup) and
lines 355-357 (after a brightness change):
`checkSpeed(); if(maxLPS > 400) maxLPS = 400;`. -/
def speedCheckStep (init : Nat) (frames : List (List Nat)) : Nat :=
  if checkSpeed init frames > 400 then 400 else checkSpeed init frames

/-- The rate the specification's words ascribe to the profiler for claim C1:
the MINIMUM over all frames of the per-frame rate (refinement comparison
definition, written from the spec, to be compared with `checkSpeed`). -/
def specMinRate (frames : List (List Nat)) : Nat :=
  match frames with
  | [] => 0
  | f :: rest => rest.foldl (fun m ts => min m (frameRate ts)) (frameRate f)

/- COLOUR PIPELINE (bmpProcess) --------------------------------------------- -/

/-- Brightness pre-scaling of one colour channel in bmpProcess:
`b = 1 + *brightness` (8-bit, wraps to 0 when brightness is 255, line 934),
`b16 = (int)b` (line 972), and per channel either
`pixel[...] = (ledPtr[...] * b16) >> 8` when `b` is non-zero (lines
1010-1013) or the raw byte unchanged (lines 1014-1017).  The 16-bit
arithmetic of the multiply/shift and the 8-bit stores are the explicit
mods. -/
def scaleChannel (v s : Nat) : Nat :=
  if (1 + s) % 256 = 0 then v % 256
  else (v % 256) * ((1 + s) % 256) % 65536 / 256 % 256

/-- Lookup tables declared in gamma.h, a header that is not part of src/
(only its include on line 38 and its uses are): the gamma curve `gamma[]`,
the dither threshold `bump[]` and the 16×16 ordered-dither matrix
`dither[][]`.  Modelled from the spec: the spec only states that the gamma
lookup is monotonic and the dither matrix is indexed by (row mod 16,
column mod 16), so the table contents are kept as parameters; every entry
is a byte, hence the mod-256 reductions at each lookup. -/
structure Tables where
  gammaT : Nat → Nat
  bump : Nat → Nat
  dither : Nat → Nat → Nat

/-- One colour byte through the gamma + dither stage (lines 1020-1027):
`corr = pgm_read_byte(&gamma[raw]); if (pgm_read_byte(&bump[raw]) > d)
corr++;` with `corr` an 8-bit cell (so the increment wraps). -/
def correctedByte (t : Tables) (d raw : Nat) : Nat :=
  (t.gammaT raw % 256 + if t.bump raw % 256 > d then 1 else 0) % 256

/-- One pixel through the column loop (lines 1009-1027): brightness-scale
and reorder BGR → R,G,B (`NEO_RED = 0`, `NEO_GREEN = 1`, `NEO_BLUE = 2`,
lines 76-78, from `BMP_BLUE = 0`, `BMP_GREEN = 1`, `BMP_RED = 2`, lines
83-85), then gamma+dither each byte in store order.  `r` is the image row,
`c` the loop column; the dither value is `dither[row & 0x0F][column & 0x0F]`
(lines 1007, 1020).  The input triple is the (B,G,R) bytes of the source
pixel; the result triple is the (R,G,B) bytes stored to the buffer. -/
def pixelTriple (t : Tables) (s r c : Nat) (bgr : Nat × Nat × Nat) : Nat × Nat × Nat :=
  (correctedByte t (t.dither (r % 16) (c % 16) % 256) (scaleChannel bgr.2.2 s),
   correctedByte t (t.dither (r % 16) (c % 16) % 256) (scaleChannel bgr.2.1 s),
   correctedByte t (t.dither (r % 16) (c % 16) % 256) (scaleChannel bgr.1 s))

/-- The three bytes of a processed pixel in buffer order. -/
def tripleBytes (x : Nat × Nat × Nat) : List Nat := [x.1, x.2.1, x.2.2]

/-- Crop / centering geometry from lines 979-988, as the triple
(`bmpStartCol`, first LED column written, `columns`):
if the image is at least as wide as the strip, processing starts at source
column `(bmpWidth - N_LEDS) / 2` and fills all `N_LEDS` LEDs from position
0; otherwise it starts at source column 0 and fills `bmpWidth` LEDs from
LED position `(N_LEDS - bmpWidth) / 2` (`ledStartPtr`, byte offset divided
by 3). -/
def cropParams (w : Nat) : Nat × Nat × Nat :=
  if N_LEDS ≤ w then ((w - N_LEDS) / 2, 0, N_LEDS)
  else (0, (N_LEDS - w) / 2, w)

/-- Source columns cropped from the left edge: processing of a wide image
starts at `bmpStartCol`. -/
def leftCrop (w : Nat) : Nat := (cropParams w).1

/-- Source columns cropped from the right edge: the columns at and beyond
`bmpStartCol + columns` are never read. -/
def rightCrop (w : Nat) : Nat := w - ((cropParams w).1 + (cropParams w).2.2)

/-- The processed bytes of one row: the column loop (lines 1009-1028)
walks `columns` source pixels starting at `bmpStartCol` and stores three
corrected bytes per pixel.  `rowPx c` is the (B,G,R) byte triple of the
source row at file column `c`. -/
def rowBytes (t : Tables) (s w r : Nat) (rowPx : Nat → Nat × Nat × Nat) : List Nat :=
  ((List.range (cropParams w).2.2).map
    (fun c => tripleBytes (pixelTriple t s r c (rowPx ((cropParams w).1 + c))))).flatten

/-- Row brightness sum: `sum += corr` over every corrected byte the column
loop stores (line 1026), starting from `sum = 0` (line 1006). -/
def rowSum (t : Tables) (s w r : Nat) (rowPx : Nat → Nat × Nat × Nat) : Nat :=
  (rowBytes t s w r rowPx).sum

/-- Content of LED position `p` of the row buffer after the column loop:
positions `[ledStart, ledStart + columns)` hold the processed pixels; when
the image is narrower than the strip the remaining positions keep the
zeros written by `memset(sdBuf, 0, N_LEDS * 3)` (line 987, executed once
before the row loop and never overwritten afterwards). -/
def ledTriple (t : Tables) (s w r : Nat) (rowPx : Nat → Nat × Nat × Nat)
    (p : Nat) : Nat × Nat × Nat :=
  if p < (cropParams w).2.1 ∨ (cropParams w).2.1 + (cropParams w).2.2 ≤ p then (0, 0, 0)
  else pixelTriple t s r (p - (cropParams w).2.1)
    (rowPx ((cropParams w).1 + (p - (cropParams w).2.1)))

/-- File row whose pixel data is used for emitted row `row` (lines
998-1002): `rowSize * (flip ? (bmpHeight - 1 - row) : row)` — `flip` is set
when the stored height was negative (lines 974-977). -/
def srcFileRow (flip : Bool) (habs row : Nat) : Nat :=
  if flip then habs - 1 - row else row

/-- The bytes emitted to the output Frame for row `row` (row 0 is written
first, to block `firstBlock + 0`, line 1031). -/
def emittedRowBytes (t : Tables) (s w : Nat) (flip : Bool) (habs : Nat)
    (px : Nat → Nat → Nat × Nat × Nat) (row : Nat) : List Nat :=
  rowBytes t s w row (px (srcFileRow flip habs row))

/-- The `lineMax` accumulator of the row loop: starts at 0 (line 930) and
is updated by `if(sum > lineMax) lineMax = sum` (line 1034) for each of the
`bmpHeight` rows. -/
def lineMaxOf (t : Tables) (s w : Nat) (flip : Bool) (habs : Nat)
    (px : Nat → Nat → Nat × Nat × Nat) : Nat :=
  trackMax (fun row => rowSum t s w row (px (srcFileRow flip habs row)))
    (List.range habs) 0

/-- Estimated peak current in mA (lines 1039-1043):
`lineMax = (lineMax * 20) / 255;` then
`lineMax = lineMax / CORRECTION_FACTOR;` where CORRECTION_FACTOR is the
double literal 1.4 (line 73).  For every value that can occur here
(lineMax is at most 3·144·256 and the quotient at most 8640), truncating
division of the exact uint32 value by the double nearest 1.4 coincides with
⌊5x/7⌋, which is how the division is modelled. -/
def estCurrent (lineMax : Nat) : Nat :=
  5 * (lineMax * 20 / 255) / 7

/-- Brightness suggestion written back through the `brightness` pointer
(lines 1045-1048): when the estimate exceeds CURRENT_MAX,
`*brightness = (*brightness * (uint32_t)CURRENT_MAX) / lineMax` (an 8-bit
store, hence the mod); otherwise `*brightness` is not touched. -/
def suggestBrightness (bright lineMax : Nat) : Nat :=
  if estCurrent lineMax > CURRENT_MAX
  then bright * CURRENT_MAX / estCurrent lineMax % 256
  else bright

/-- File-storage model of the bitmap row order for claim C8: `img k` is the
k-th row of the source image counted from the BOTTOM of the image.  A
bottom-up file (positive stored height) stores the bottom image row first;
a top-down file (negative stored height, `topDown = true`) stores the top
image row first. -/
def storedRows (img : Nat → Nat → Nat × Nat × Nat) (habs : Nat) (topDown : Bool) :
    Nat → Nat → Nat × Nat × Nat :=
  fun r => if topDown then img (habs - 1 - r) else img r

/- BITMAP FILE VALIDATION (bmpProcess entry) -------------------------------- -/

/-- A bitmap input file: the 34-byte header (the bytes that
`inFile.read(sdBuf, 34)` deposits in the buffer, line 943) and the pixel
data, `px r c` being the (B,G,R) byte triple at file row `r`, file column
`c`.  The file is assumed to open and read correctly: the open/read
failures of lines 938-941 and 1003-1004 are storage errors, not format
validation. -/
structure BmpFile where
  hdr : Nat → Nat
  px : Nat → Nat → Nat × Nat × Nat

/-- Little-endian 16-bit header field, model of `*(uint16_t *)&sdBuf[o]`. -/
def read16 (hdr : Nat → Nat) (o : Nat) : Nat :=
  hdr o % 256 + 256 * (hdr (o + 1) % 256)

/-- Little-endian 32-bit header field, model of `*(uint32_t *)&sdBuf[o]`. -/
def read32 (hdr : Nat → Nat) (o : Nat) : Nat :=
  read16 hdr o + 65536 * read16 hdr (o + 2)

/-- Header validation of bmpProcess (lines 943-947): BMP signature 0x4D42
at offset 0, plane count 1 at offset 26, bit depth 24 at offset 28,
compression 0 at offset 30. -/
def bmpHeaderOk (hdr : Nat → Nat) : Bool :=
  (read16 hdr 0 == 0x4D42) && (read16 hdr 26 == 1) && (read16 hdr 28 == 24)
    && (read32 hdr 30 == 0)

/-- Reading a 32-bit header field into a 16-bit AVR `int` local
(`int bmpWidth; ... bmpWidth = *(uint32_t *)&sdBuf[18];`, lines 913-914 and
950-951): the low 16 bits, reinterpreted as signed. -/
def toInt16 (n : Nat) : Int :=
  if n % 65536 < 32768 then ((n % 65536 : Nat) : Int) else ((n % 65536 : Nat) : Int) - 65536

inductive ProcError where
  | formatError
deriving DecidableEq

/-- A produced Frame: the rows streamed to the output blocks, and the
brightness suggestion returned through the pointer. -/
structure FrameOut where
  rows : List (List Nat)
  suggested : Nat
deriving DecidableEq

/-- bmpProcess (lines 905-1057) for a conversion call (output name and
brightness pointer given, as completeScan calls it, line 490).  The header
is validated (lines 943-947); on any other header combination the function
reports the `BMP format not recognized` error (lines 1051-1053) and the
output file is neither deleted, created nor written — the remove /
createContiguous / writeBlock calls (lines 956-969, 1030-1033) all sit
inside the success branch.  On a supported header it emits |height| rows
and computes the brightness suggestion.  Storage operations are assumed to
succeed.  Width and height pass through 16-bit `int` locals (lines
913-914); a negative height marks top-down storage (lines 974-977). -/
def bmpProcess (t : Tables) (f : BmpFile) (bright : Nat) : Except ProcError FrameOut :=
  if bmpHeaderOk f.hdr then
    Except.ok
      { rows := (List.range (toInt16 (read32 f.hdr 22)).natAbs).map
          (emittedRowBytes t bright (toInt16 (read32 f.hdr 18)).toNat
            (decide (toInt16 (read32 f.hdr 22) < 0)) (toInt16 (read32 f.hdr 22)).natAbs f.px)
      , suggested := suggestBrightness bright
          (lineMaxOf t bright (toInt16 (read32 f.hdr 18)).toNat
            (decide (toInt16 (read32 f.hdr 22) < 0)) (toInt16 (read32 f.hdr 22)).natAbs f.px) }
  else Except.error ProcError.formatError

/- SD SCAN / INDEX TABLE ----------------------------------------------------- -/

/-- One directory entry as the scan loops see it, via `openNext`:
subdirectory flag, hidden flag, name, and the directory index returned by
`tmp.dirIndex()` (a uint16). -/
structure DirEntry where
  isSubDir : Bool
  isHidden : Bool
  name : List Char
  dirIndex : Nat
deriving DecidableEq

/-- The name test of the scan loops, `strstr(infile, "bmp") > 0` (lines 479
and 538): the name contains the byte sequence "bmp" somewhere. -/
def nameHasBmp : List Char → Bool
  | 'b' :: 'm' :: 'p' :: _ => true
  | _ :: rest => nameHasBmp rest
  | [] => false

/-- Eligibility of an entry (lines 477-479 / 536-538): not a subdirectory,
not hidden, name contains "bmp". -/
def eligible (e : DirEntry) : Bool :=
  !e.isSubDir && !e.isHidden && nameHasBmp e.name

/-- Pointwise update of the modelled fileIndex array content. -/
def update (f : Nat → Nat) (i v : Nat) : Nat → Nat :=
  fun j => if j = i then v else f j

/-- The scan state: the `nFrames` counter (line 92), the contents of the
`fileIndex` array (line 89, declared `uint8_t fileIndex[30]` — 30 slots),
and, as instrumentation, the trace of array stores
`fileIndex[slot] = dirIndex` the loop performs.  A store with slot ≥ 30 is
past the end of the array. -/
structure ScanState where
  nFrames : Nat
  fileIndex : Nat → Nat
  writes : List (Nat × Nat)

/-- Loop body shared by completeScan (lines 476-497) and shortScan (lines
535-544): for every eligible entry, `fileIndex[nFrames] = tmp.dirIndex();`
then `nFrames++`.  Neither loop compares `nFrames` against the 30-slot
capacity before the store. -/
def scanStep (st : ScanState) (e : DirEntry) : ScanState :=
  if eligible e then
    { nFrames := st.nFrames + 1
    , fileIndex := update st.fileIndex st.nFrames (e.dirIndex % 256)
    , writes := st.writes ++ [(st.nFrames, e.dirIndex % 256)] }
  else st

/-- shortScan (lines 522-545): rebuilds the index table by running the loop
body over the directory; `nFrames` is NOT reset before the loop. -/
def shortScan (entries : List DirEntry) (st : ScanState) : ScanState :=
  entries.foldl scanStep st

/-- The index-population part of completeScan (lines 452-518): here
`nFrames` IS reset to 0 first (`nFrames = 0;`, line 474, "in case this is a
rescan") and then the same loop body runs.  The call to bmpProcess inside
the loop does not touch `nFrames` or `fileIndex` and is omitted. -/
def completeScan (entries : List DirEntry) (st : ScanState) : ScanState :=
  shortScan entries { st with nFrames := 0 }

/- EEPROM CONFIGURATION ------------------------------------------------------ -/

/-- The three adjustable settings (lines 105-107). -/
structure Config where
  setBrightness : Nat
  speed : Nat
  delay : Nat
deriving DecidableEq

/-- `EEPROM.update(addr, v)`: after the call the cell holds the byte `v`
(update writes only when the value differs, which leaves the same final
contents). -/
def eepromUpdate (e : Nat → Nat) (addr v : Nat) : Nat → Nat :=
  fun a => if a = addr then v % 256 else e a

/-- saveConfig (lines 1121-1126): version flag 66 at cell 0, then
brightness, speed and delay at cells 1, 2, 3. -/
def saveConfig (c : Config) (e : Nat → Nat) : Nat → Nat :=
  eepromUpdate (eepromUpdate (eepromUpdate (eepromUpdate e 0 66)
    1 c.setBrightness) 2 c.speed) 3 c.delay

/-- loadConfig (lines 1130-1136): when cell 0 reads 66, the three settings
are loaded from cells 1, 2, 3; otherwise the settings keep their current
values. -/
def loadConfig (e : Nat → Nat) (c : Config) : Config :=
  if e 0 % 256 = 66 then
    { setBrightness := e 1 % 256, speed := e 2 % 256, delay := e 3 % 256 }
  else c

/- CONCRETE FIXTURES USED BY WITNESSES AND COUNTEREXAMPLES ------------------- -/

/-- Zero lookup tables (a concrete Tables instance for witnesses). -/
def table0 : Tables :=
  { gammaT := fun _ => 0, bump := fun _ => 0, dither := fun _ _ => 0 }

/-- A file whose 34 header bytes are all zero: the signature check fails. -/
def badBmp : BmpFile :=
  { hdr := fun _ => 0, px := fun _ _ => (0, 0, 0) }

/-- A concrete source image (rows indexed from the bottom). -/
def imgW : Nat → Nat → Nat × Nat × Nat :=
  fun r c => (r, c, r + c)

/-- A directory listing with 31 eligible bitmap files, one more than the
index table holds. -/
def dir31 : List DirEntry :=
  (List.range 31).map
    (fun i => { isSubDir := false, isHidden := false,
                name := ['a', '.', 'b', 'm', 'p'], dirIndex := i })

/-- A directory listing with a single eligible bitmap file at directory
index 5. -/
def dir1 : List DirEntry :=
  [{ isSubDir := false, isHidden := false,
     name := ['a', '.', 'b', 'm', 'p'], dirIndex := 5 }]

/-- The scan state at power-up: zero-initialised globals. -/
def scanState0 : ScanState :=
  { nFrames := 0, fileIndex := fun _ => 0, writes := [] }

/- HELPER LEMMAS ------------------------------------------------------------- -/

/-- The conditional update of the tracking loops is the binary maximum. -/
theorem if_gt_eq_max (m n : Nat) : (if n > m then n else m) = max m n := by
  split <;> omega

/-- Unrolling `trackMax`: the loop computes the maximum of the start value
and the values of `f` over the list. -/
theorem trackMax_eq_max {α : Type} (f : α → Nat) (l : List α) (a : Nat) :
    trackMax f l a = max a ((l.map f).foldr max 0) := by
  induction l generalizing a with
  | nil => simp [trackMax]
  | cons x xs ih =>
    show trackMax f xs (if f x > a then f x else a) = _
    rw [ih, if_gt_eq_max, List.map_cons, List.foldr_cons]
    omega

/- CLAIM THEOREMS ------------------------------------------------------------ -/

/-- C1 counterexample: two frames whose worst block-read latencies are 0 µs
and 100000 µs.  The per-frame rates are 223 and 9 rows/s; the minimum the
claim asks for is 9, but `checkSpeed` (entered with the startup value
maxLPS = 0) returns 223: the code keeps the MAXIMUM of the per-frame rates,
not the minimum. -/
theorem checkSpeed_ne_specMinRate :
    checkSpeed 0 [[0], [100000]] = 223 ∧ specMinRate [[0], [100000]] = 9 ∧
      checkSpeed 0 [[0], [100000]] ≠ specMinRate [[0], [100000]] := by
  decide

/-- C1 amended: the system-wide rate computed by `checkSpeed` equals the
maximum of the incoming `maxLPS` value and the per-frame rates (worst
latency of the frame's consecutive block reads, + 5%, + 30 µs per LED,
+ constant loop overhead, inverted to rows/second) of all frames — the
maximum over frames, not the minimum. -/
theorem checkSpeed_eq_max (init : Nat) (frames : List (List Nat)) :
    checkSpeed init frames = max init ((frames.map frameRate).foldr max 0) :=
  trackMax_eq_max frameRate frames init

/-- C2: bmpProcess produces a decoded Frame exactly when the header
signature is 0x4D42, the plane count 1, the bit depth 24 and the
compression flag 0; on every other header combination it fails with the
format error and produces no output. -/
theorem bmpProcess_headerCheck (t : Tables) (f : BmpFile) (bright : Nat) :
    ((∃ out, bmpProcess t f bright = Except.ok out) ↔ bmpHeaderOk f.hdr = true) ∧
      (bmpHeaderOk f.hdr = false →
        bmpProcess t f bright = Except.error ProcError.formatError) := by
  constructor
  · constructor
    · rintro ⟨out, hout⟩
      by_contra hh
      rw [Bool.not_eq_true] at hh
      simp [bmpProcess, hh] at hout
    · intro hh
      cases hout : bmpProcess t f bright with
      | ok out => exact ⟨out, rfl⟩
      | error err =>
        unfold bmpProcess at hout
        rw [if_pos hh] at hout
        simp at hout
  · intro hh
    simp [bmpProcess, hh]

/-- C2 witness: the all-zero header is rejected with the format error. -/
theorem bmpProcess_headerCheck_witness :
    bmpProcess table0 badBmp 0 = Except.error ProcError.formatError :=
  (bmpProcess_headerCheck table0 badBmp 0).2 (by decide)

/-- C3: scanning a directory that holds 31 eligible bitmap files (capacity
is 30) makes both scan loops store `fileIndex[30]`, one slot past the end
of the array, while completing normally — no CapacityExceeded condition is
raised anywhere (none exists in the code). -/
theorem scan_overflows_fileIndex :
    (completeScan dir31 scanState0).writes.filter (fun wr => decide (30 ≤ wr.1))
        = [(30, 30)] ∧
      (completeScan dir31 scanState0).nFrames = 31 ∧
      (shortScan dir31 scanState0).writes.filter (fun wr => decide (30 ≤ wr.1))
        = [(30, 30)] := by
  decide

/-- C4: shortScan is not idempotent: run twice over the unchanged
single-file directory it leaves nFrames = 2 (the counter is never reset,
unlike completeScan's line 474) and appends a duplicate index entry, so the
second run does not yield the same table and count as a single run. -/
theorem shortScan_not_idempotent :
    (shortScan dir1 (shortScan dir1 scanState0)).nFrames = 2 ∧
      (shortScan dir1 scanState0).nFrames = 1 ∧
      (shortScan dir1 (shortScan dir1 scanState0)).writes = [(0, 5), (1, 5)] ∧
      (shortScan dir1 (shortScan dir1 scanState0)).fileIndex 1 = 5 ∧
      (shortScan dir1 scanState0).fileIndex 1 = 0 := by
  constructor
  · decide
  constructor
  · decide
  constructor
  · decide
  constructor
  · decide
  · decide

/-- C5: the lineMax the row loop tracks equals the maximum over all rows of
the row sum of corrected channel values; the estimated current follows the
maxRowSum · 20 / 255 / (7/5) formula, and the suggested brightness is
brightness · CURRENT_MAX / estimate when the estimate exceeds the budget
and the unchanged brightness otherwise. -/
theorem suggestBrightness_spec (t : Tables) (s w : Nat) (flip : Bool) (habs : Nat)
    (px : Nat → Nat → Nat × Nat × Nat) (bright : Nat) (hb : bright ≤ 255) :
    lineMaxOf t s w flip habs px =
      ((List.range habs).map
        (fun row => rowSum t s w row (px (srcFileRow flip habs row)))).foldr max 0 ∧
    estCurrent (lineMaxOf t s w flip habs px) =
      5 * ((((List.range habs).map
        (fun row => rowSum t s w row (px (srcFileRow flip habs row)))).foldr max 0)
          * 20 / 255) / 7 ∧
    suggestBrightness bright (lineMaxOf t s w flip habs px) =
      if estCurrent (lineMaxOf t s w flip habs px) > CURRENT_MAX
      then bright * CURRENT_MAX / estCurrent (lineMaxOf t s w flip habs px)
      else bright := by
  have h1 : lineMaxOf t s w flip habs px =
      ((List.range habs).map
        (fun row => rowSum t s w row (px (srcFileRow flip habs row)))).foldr max 0 := by
    rw [lineMaxOf, trackMax_eq_max]
    omega
  refine ⟨h1, by rw [h1]; rfl, ?_⟩
  by_cases hgt : estCurrent (lineMaxOf t s w flip habs px) > CURRENT_MAX
  · rw [suggestBrightness, if_pos hgt, if_pos hgt]
    apply Nat.mod_eq_of_lt
    apply Nat.div_lt_of_lt_mul
    have h2 : 3501 * 256 ≤ estCurrent (lineMaxOf t s w flip habs px) * 256 := by
      apply Nat.mul_le_mul_right
      simp only [CURRENT_MAX] at hgt
      omega
    have h3 : bright * CURRENT_MAX ≤ 255 * CURRENT_MAX :=
      Nat.mul_le_mul_right CURRENT_MAX hb
    simp only [CURRENT_MAX] at h3 ⊢
    omega
  · rw [suggestBrightness, if_neg hgt, if_neg hgt]

/-- C5 witness at a small concrete image. -/
theorem suggestBrightness_spec_witness :
    suggestBrightness 100 (lineMaxOf table0 0 1 false 1 (fun _ _ => (0, 0, 0))) =
      if estCurrent (lineMaxOf table0 0 1 false 1 (fun _ _ => (0, 0, 0))) > CURRENT_MAX
      then 100 * CURRENT_MAX / estCurrent (lineMaxOf table0 0 1 false 1 (fun _ _ => (0, 0, 0)))
      else 100 :=
  (suggestBrightness_spec table0 0 1 false 1 (fun _ _ => (0, 0, 0)) 100 (by decide)).2.2

/-- C6: when the source is at least as wide as the strip the code crops
⌊(w−N)/2⌋ columns on the left and w−N−⌊(w−N)/2⌋ on the right (the two
differ by at most one) and keeps exactly N_LEDS columns; when it is
narrower, the image is placed starting at LED (N_LEDS−w)/2 and every LED
outside that central window stays zero. -/
theorem crop_center_spec (w : Nat) :
    (N_LEDS ≤ w →
      leftCrop w = (w - N_LEDS) / 2 ∧
      rightCrop w = w - N_LEDS - (w - N_LEDS) / 2 ∧
      rightCrop w ≤ leftCrop w + 1 ∧ leftCrop w ≤ rightCrop w + 1 ∧
      (cropParams w).2.2 = N_LEDS) ∧
    (w < N_LEDS →
      (cropParams w).2.1 = (N_LEDS - w) / 2 ∧
      (cropParams w).2.2 = w ∧
      (∀ t s r rowPx p, p < (N_LEDS - w) / 2 ∨ (N_LEDS - w) / 2 + w ≤ p →
        ledTriple t s w r rowPx p = (0, 0, 0)) ∧
      (∀ t s r rowPx j, j < w →
        ledTriple t s w r rowPx ((N_LEDS - w) / 2 + j) =
          pixelTriple t s r j (rowPx j))) := by
  constructor
  · intro hw
    have hc : cropParams w = ((w - N_LEDS) / 2, 0, N_LEDS) := by
      unfold cropParams
      rw [if_pos hw]
    have hw' : 144 ≤ w := by simpa [N_LEDS] using hw
    refine ⟨?_, ?_, ?_, ?_, ?_⟩
    · simp only [leftCrop, hc]
    · simp only [rightCrop, hc, N_LEDS]
      omega
    · simp only [leftCrop, rightCrop, hc, N_LEDS]
      omega
    · simp only [leftCrop, rightCrop, hc, N_LEDS]
      omega
    · simp only [hc]
  · intro hw
    have hc : cropParams w = (0, (N_LEDS - w) / 2, w) := by
      unfold cropParams
      rw [if_neg (by omega)]
    refine ⟨by rw [hc], by rw [hc], ?_, ?_⟩
    · intro t s r rowPx p hp
      unfold ledTriple
      simp only [hc]
      rw [if_pos hp]
    · intro t s r rowPx j hj
      unfold ledTriple
      simp only [hc]
      rw [if_neg ?neg]
      case neg =>
        simp only [N_LEDS] at hj ⊢
        omega
      have harg : (N_LEDS - w) / 2 + j - (N_LEDS - w) / 2 = j := by omega
      rw [harg, Nat.zero_add]

/-- C6 witness: the 150-wide image is cropped 3+3 with 144 columns kept;
the 100-wide image starts at LED 22 and LED 0 stays dark. -/
theorem crop_center_spec_witness :
    (leftCrop 150 = (150 - N_LEDS) / 2 ∧
      rightCrop 150 = 150 - N_LEDS - (150 - N_LEDS) / 2 ∧
      rightCrop 150 ≤ leftCrop 150 + 1 ∧ leftCrop 150 ≤ rightCrop 150 + 1 ∧
      (cropParams 150).2.2 = N_LEDS) ∧
    (cropParams 100).2.1 = (N_LEDS - 100) / 2 ∧
    ledTriple table0 0 100 0 (fun _ => (0, 0, 0)) 0 = (0, 0, 0) :=
  ⟨(crop_center_spec 150).1 (by decide),
   ((crop_center_spec 100).2 (by decide)).1,
   ((crop_center_spec 100).2 (by decide)).2.2.1 table0 0 0 (fun _ => (0, 0, 0)) 0
     (Or.inl (by decide))⟩

/-- C7: the pre-gamma scaled value equals ⌊v·(1+s)/256⌋ for every channel
value and brightness setting in 0..255, and at s = 255 (where the 8-bit
multiplier wraps to 0 and the unscaled branch runs) the value passes
through unchanged — which is ⌊v·256/256⌋. -/
theorem scaleChannel_eq_floor (v s : Nat) (hv : v ≤ 255) (hs : s ≤ 255) :
    scaleChannel v s = v * (1 + s) / 256 ∧ scaleChannel v 255 = v := by
  have hv' : v % 256 = v := Nat.mod_eq_of_lt (by omega)
  constructor
  · by_cases h : s = 255
    · subst h
      simp only [scaleChannel]
      norm_num [hv']
    · have hb : (1 + s) % 256 = 1 + s := Nat.mod_eq_of_lt (by omega)
      have hlt : v * (1 + s) < 65536 := by
        calc v * (1 + s) ≤ 255 * 255 := Nat.mul_le_mul hv (by omega)
        _ < 65536 := by norm_num
      have hm : v * (1 + s) % 65536 = v * (1 + s) := Nat.mod_eq_of_lt hlt
      have hd : v * (1 + s) / 256 < 256 := Nat.div_lt_of_lt_mul (by omega)
      rw [scaleChannel, if_neg (by omega), hv', hb, hm, Nat.mod_eq_of_lt hd]
  · simp only [scaleChannel]
    norm_num [hv']

/-- C7 witness. -/
theorem scaleChannel_eq_floor_witness :
    scaleChannel 200 100 = 200 * (1 + 100) / 256 ∧ scaleChannel 200 255 = 200 :=
  scaleChannel_eq_floor 200 100 (by decide) (by decide)

/-- C8: whether the bitmap is stored bottom-up or top-down, the k-th row
emitted to the Frame is the processed k-th row of the source image counted
from the bottom: output order is canonically bottom-to-top. -/
theorem emittedRow_canonical (t : Tables) (s w : Nat) (topDown : Bool) (habs : Nat)
    (img : Nat → Nat → Nat × Nat × Nat) (k : Nat) (hk : k < habs) :
    emittedRowBytes t s w topDown habs (storedRows img habs topDown) k =
      rowBytes t s w k (img k) := by
  unfold emittedRowBytes storedRows srcFileRow
  cases topDown with
  | false => simp
  | true =>
    have h : habs - 1 - (habs - 1 - k) = k := by omega
    simp [h]

/-- C8 witness: a three-row top-down image, middle row. -/
theorem emittedRow_canonical_witness :
    emittedRowBytes table0 0 1 true 3 (storedRows imgW 3 true) 1 =
      rowBytes table0 0 1 1 (imgW 1) :=
  emittedRow_canonical table0 0 1 true 3 imgW 1 (by decide)

/-- C9: after every speed-check step (startup, lines 183-184, and after a
brightness change, lines 356-357) the derived maximum playback rate never
exceeds the protocol's 400 rows/second refresh ceiling, whatever the
measured latencies (including near-zero) and whatever value maxLPS held
before. -/
theorem speedCheckStep_le_400 (init : Nat) (frames : List (List Nat)) :
    speedCheckStep init frames ≤ 400 := by
  unfold speedCheckStep
  split <;> omega

/-- C10: loadConfig right after saveConfig restores the three settings
exactly (saveConfig writes the version tag 66 that loadConfig requires),
and when the stored version-tag byte is not 66 loadConfig leaves all three
settings unchanged. -/
theorem config_roundtrip (b s d : Nat) (e : Nat → Nat) (c0 : Config)
    (hb : b ≤ 255) (hs : s ≤ 255) (hd : d ≤ 255) :
    loadConfig (saveConfig ⟨b, s, d⟩ e) c0 = ⟨b, s, d⟩ ∧
      (e 0 % 256 ≠ 66 → loadConfig e c0 = c0) := by
  constructor
  · simp only [loadConfig, saveConfig, eepromUpdate]
    norm_num
    constructor
    · omega
    constructor
    · omega
    · omega
  · intro h
    simp only [loadConfig]
    rw [if_neg h]

/-- C10 witness. -/
theorem config_roundtrip_witness :
    loadConfig (saveConfig ⟨10, 20, 30⟩ (fun _ => 0)) ⟨1, 2, 3⟩ = ⟨10, 20, 30⟩ :=
  (config_roundtrip 10 20 30 (fun _ => 0) ⟨1, 2, 3⟩ (by decide) (by decide) (by decide)).1

end LightPainter
